import Mathlib

/- Shallow embedding of the asset extraction tool (extract.py): key
derivation, bundle decryption, the StoryId codec, the extraction step and
the export/batch pipeline.  Bytes are modelled as Nat values, Python byte
strings as List Nat, Python strings as List Char, Python None via Option,
and a caught Python exception via Except Unit. -/

/-- Byte sequence bytes.fromhex(BUNDLE_BASE_KEY) for the source constant
BUNDLE_BASE_KEY = "532b4631e4a7b9473e7cfb" (11 bytes). -/
def BUNDLE_BASE_KEY : List Nat :=
  [0x53, 0x2b, 0x46, 0x31, 0xe4, 0xa7, 0xb9, 0x47, 0x3e, 0x7c, 0xfb]

/-- Embedding of int.to_bytes(8, byteorder="little", signed=True): the
two's-complement residue of k modulo 2^64 written as 8 base-256 digits,
least significant first. -/
def toBytesLE8 (k : Int) : List Nat :=
  let n := (k % (2 : Int) ^ 64).toNat
  [n % 256, n / 256 % 256, n / 256 ^ 2 % 256, n / 256 ^ 3 % 256,
   n / 256 ^ 4 % 256, n / 256 ^ 5 % 256, n / 256 ^ 6 % 256, n / 256 ^ 7 % 256]

/-- Embedding of GameBundle._create_final_key, parametric in the base key
exactly as the loop is: for each base-key byte b at index i and each
record-key byte at index j, the output byte at offset (i << 3) + j is
b XOR (record-key byte j); the bytearray of size len(base_key)*8 is filled
exactly once at every offset, which the flatMap reproduces because the
record-key encoding has exactly 8 bytes. -/
def create_final_key (base_key : List Nat) (bundle_key : Int) : List Nat :=
  let kb := toBytesLE8 bundle_key
  base_key.flatMap (fun b => kb.map (fun kByte => b ^^^ kByte))

/-- Embedding of GameBundle._decrypt: the final key is derived from the
fixed base key and the bundle key; every byte at offset 256 or beyond is
XORed with final_key[i % len(final_key)], earlier bytes pass through. -/
def GameBundle.decrypt (bundle_key : Int) (data : List Nat) : List Nat :=
  let final_key := create_final_key BUNDLE_BASE_KEY bundle_key
  data.mapIdx (fun i b => if i < 256 then b else b ^^^ final_key[i % final_key.length]!)

/-- Byte-level behaviour of GameBundle.load: with bundle_key = 0 the raw
file bytes are handed to the parser untouched; otherwise the buffer is
decrypted only when it is longer than 256 bytes, else passed unchanged. -/
def decode (raw : List Nat) (bundle_key : Int) : List Nat :=
  if bundle_key = 0 then raw
  else if raw.length > 256 then GameBundle.decrypt bundle_key raw
  else raw

lemma toBytesLE8_length (k : Int) : (toBytesLE8 k).length = 8 := rfl

lemma create_final_key_length (base_key : List Nat) (k : Int) :
    (create_final_key base_key k).length = base_key.length * 8 := by
  induction base_key with
  | nil => rfl
  | cons b bs ih =>
    simp only [create_final_key, List.flatMap_cons] at ih ⊢
    simp only [List.length_append, List.length_map, toBytesLE8_length, ih,
      List.length_cons]
    omega

lemma create_final_key_getElem? (base_key : List Nat) (k : Int)
    (i j : Nat) (hi : i < base_key.length) (hj : j < 8) :
    (create_final_key base_key k)[i * 8 + j]? =
      some (base_key[i]! ^^^ (toBytesLE8 k)[j]!) := by
  induction base_key generalizing i with
  | nil => simp at hi
  | cons b bs ih =>
    simp only [create_final_key, List.flatMap_cons]
    have hlen : ((toBytesLE8 k).map (fun kByte => b ^^^ kByte)).length = 8 := by
      simp [toBytesLE8_length]
    match i with
    | 0 =>
      have hj8 : j < (toBytesLE8 k).length := by rw [toBytesLE8_length]; exact hj
      rw [show (0 : Nat) * 8 + j = j by omega]
      rw [List.getElem?_append, if_pos (by omega)]
      rw [List.getElem?_map, List.getElem?_eq_getElem hj8]
      rw [getElem!_pos (toBytesLE8 k) j hj8]
      simp
    | i + 1 =>
      have hi' : i < bs.length := by
        simp only [List.length_cons] at hi; omega
      rw [List.getElem?_append, if_neg (by omega), hlen]
      rw [show (i + 1) * 8 + j - 8 = i * 8 + j by omega]
      have htail := ih i hi'
      simp only [create_final_key] at htail
      rw [htail]
      simp

lemma create_final_key_getElem (base_key : List Nat) (k : Int)
    (i j : Nat) (hi : i < base_key.length) (hj : j < 8) :
    (create_final_key base_key k)[i * 8 + j]! =
      base_key[i]! ^^^ (toBytesLE8 k)[j]! := by
  rw [getElem!_def, create_final_key_getElem? base_key k i j hi hj]

/-- C1: deriveBundleKey (GameBundle._create_final_key) encodes the signed
64-bit record key as 8 little-endian two's-complement bytes (the bytes are
the base-256 digits of the key's residue modulo 2^64, least significant
first, as the recomposition equation states), returns a buffer of length
len(baseKey) * 8 whose byte at index i*8 + j is baseKey[i] XOR
recordKeyBytes[j] for all i < len(baseKey) and j < 8, and is
deterministic: equal inputs give identical output. -/
theorem deriveBundleKey_spec (base_key : List Nat) (k : Int)
    (hk : -(2 ^ 63) ≤ k ∧ k < 2 ^ 63) :
    (create_final_key base_key k).length = base_key.length * 8 ∧
    (toBytesLE8 k).length = 8 ∧
    ((toBytesLE8 k)[0]! + (toBytesLE8 k)[1]! * 256 + (toBytesLE8 k)[2]! * 256 ^ 2 +
      (toBytesLE8 k)[3]! * 256 ^ 3 + (toBytesLE8 k)[4]! * 256 ^ 4 +
      (toBytesLE8 k)[5]! * 256 ^ 5 + (toBytesLE8 k)[6]! * 256 ^ 6 +
      (toBytesLE8 k)[7]! * 256 ^ 7) = (k % (2 : Int) ^ 64).toNat ∧
    (∀ i j, i < base_key.length → j < 8 →
      (create_final_key base_key k)[i * 8 + j]! =
        base_key[i]! ^^^ (toBytesLE8 k)[j]!) ∧
    (∀ b2 k2, b2 = base_key → k2 = k →
      create_final_key b2 k2 = create_final_key base_key k) := by
  refine ⟨create_final_key_length base_key k, rfl, ?_, ?_, ?_⟩
  · have h1 : 0 ≤ k % (2 : Int) ^ 64 := Int.emod_nonneg k (by norm_num)
    have h2 : k % (2 : Int) ^ 64 < 2 ^ 64 := Int.emod_lt_of_pos k (by norm_num)
    have hn : (k % (2 : Int) ^ 64).toNat < 2 ^ 64 := by omega
    simp only [toBytesLE8, List.getElem!_cons_zero, List.getElem!_cons_succ]
    omega
  · exact fun i j hi hj => create_final_key_getElem base_key k i j hi hj
  · intro b2 k2 hb hk2; rw [hb, hk2]

/-- Witness for C1 at a concrete input: the fixed base key and record key 5. -/
theorem deriveBundleKey_spec_witness :
    (create_final_key BUNDLE_BASE_KEY 5).length = BUNDLE_BASE_KEY.length * 8 ∧
    (create_final_key BUNDLE_BASE_KEY 5)[2 * 8 + 1]! =
      BUNDLE_BASE_KEY[2]! ^^^ (toBytesLE8 5)[1]! := by
  have h := deriveBundleKey_spec BUNDLE_BASE_KEY 5 (by norm_num)
  exact ⟨h.1, h.2.2.2.1 2 1 (by norm_num [BUNDLE_BASE_KEY]) (by norm_num)⟩

lemma decrypt_length (k : Int) (data : List Nat) :
    (GameBundle.decrypt k data).length = data.length := by
  simp [GameBundle.decrypt]

lemma decrypt_getElem (k : Int) (data : List Nat) (i : Nat) (h : i < data.length) :
    (GameBundle.decrypt k data)[i]! =
      if i < 256 then data[i]!
      else data[i]! ^^^ (create_final_key BUNDLE_BASE_KEY k)[i %
        (create_final_key BUNDLE_BASE_KEY k).length]! := by
  have hlen : i < (GameBundle.decrypt k data).length := by rw [decrypt_length]; exact h
  rw [getElem!_pos (GameBundle.decrypt k data) i hlen,
      getElem!_pos data i h]
  simp only [GameBundle.decrypt]
  rw [List.getElem_mapIdx]

/-- C2: decode is the identity for record key 0; for a non-zero record key
it keeps the length, leaves bytes at offsets below 256 unchanged, XORs each
byte at offset 256 or beyond with derivedKey[offset % len(derivedKey)], and
returns the buffer unchanged when it is at most 256 bytes long. -/
theorem decode_spec (raw : List Nat) (k : Int) (hk : k ≠ 0) :
    decode raw 0 = raw ∧
    (raw.length ≤ 256 → decode raw k = raw) ∧
    (decode raw k).length = raw.length ∧
    (∀ i, i < 256 → i < raw.length → (decode raw k)[i]! = raw[i]!) ∧
    (∀ i, 256 ≤ i → i < raw.length →
      (decode raw k)[i]! = raw[i]! ^^^
        (create_final_key BUNDLE_BASE_KEY k)[i %
          (create_final_key BUNDLE_BASE_KEY k).length]!) := by
  refine ⟨by simp [decode], ?_, ?_, ?_, ?_⟩
  · intro hle
    rw [decode, if_neg hk, if_neg (by omega)]
  · by_cases hlen : raw.length > 256
    · rw [decode, if_neg hk, if_pos hlen, decrypt_length]
    · rw [decode, if_neg hk, if_neg hlen]
  · intro i hi hilen
    by_cases hlen : raw.length > 256
    · rw [decode, if_neg hk, if_pos hlen, decrypt_getElem k raw i hilen, if_pos hi]
    · rw [decode, if_neg hk, if_neg hlen]
  · intro i hi hilen
    have hlen : raw.length > 256 := by omega
    rw [decode, if_neg hk, if_pos hlen, decrypt_getElem k raw i hilen,
        if_neg (by omega)]

/-- Witness for C2 at a concrete input: a 300-byte buffer of zeros and
record key 1; offset 0 is unchanged and offset 256 is XORed with the
derived key byte at index 256 mod 88. -/
theorem decode_spec_witness :
    decode (List.replicate 300 0) 0 = List.replicate 300 0 ∧
    (decode (List.replicate 300 0) 1)[0]! = (List.replicate 300 0)[0]! ∧
    (decode (List.replicate 300 0) 1)[256]! = (List.replicate 300 0)[256]! ^^^
      (create_final_key BUNDLE_BASE_KEY 1)[256 %
        (create_final_key BUNDLE_BASE_KEY 1).length]! := by
  have h := decode_spec (List.replicate 300 0) 1 (by norm_num)
  exact ⟨decode_spec (List.replicate 300 0) 1 (by norm_num) |>.1,
    h.2.2.2.1 0 (by norm_num) (by norm_num),
    h.2.2.2.2 256 (by norm_num) (by norm_num)⟩

lemma decrypt_decrypt (k : Int) (data : List Nat) :
    GameBundle.decrypt k (GameBundle.decrypt k data) = data := by
  apply List.ext_getElem
  · rw [decrypt_length, decrypt_length]
  · intro i h1 h2
    have hd : i < (GameBundle.decrypt k data).length := by rw [decrypt_length]; exact h2
    rw [← getElem!_pos (GameBundle.decrypt k (GameBundle.decrypt k data)) i h1,
        ← getElem!_pos data i h2]
    rw [decrypt_getElem k _ i hd, decrypt_getElem k data i h2]
    by_cases hi : i < 256
    · rw [if_pos hi, if_pos hi]
    · rw [if_neg hi, if_neg hi, Nat.xor_cancel_right]

/-- C3: applying decode twice with the same non-zero record key recovers
the original buffer, because the XOR keystream is its own inverse. -/
theorem decode_involutive (raw : List Nat) (k : Int) (hk : k ≠ 0) :
    decode (decode raw k) k = raw := by
  by_cases hlen : raw.length > 256
  · have hinner : decode raw k = GameBundle.decrypt k raw := by
      rw [decode, if_neg hk, if_pos hlen]
    rw [hinner, decode, if_neg hk, if_pos (by rw [decrypt_length]; exact hlen)]
    exact decrypt_decrypt k raw
  · have hinner : decode raw k = raw := by
      rw [decode, if_neg hk, if_neg hlen]
    rw [hinner, decode, if_neg hk, if_neg hlen]

/-- Witness for C3 at a concrete input: a 257-byte buffer that really is
transformed by the first decode, and record key 2. -/
theorem decode_involutive_witness :
    decode (decode (List.replicate 257 7) 2) 2 = List.replicate 257 7 :=
  decode_involutive (List.replicate 257 7) 2 (by norm_num)

/-- Python truthiness of an optional string: None and the empty string are
falsy. -/
def pyFalsy (o : Option (List Char)) : Bool :=
  match o with
  | none => true
  | some s => s.isEmpty

/-- Composite story identifier: the type tag plus the four optional
positional fields of the source class StoryId. -/
structure StoryId where
  type : String
  set : Option (List Char)
  group : Option (List Char)
  id : Option (List Char)
  idx : Option (List Char)
deriving Repr, DecidableEq

/-- Embedding of StoryId.__init__: for lyrics and preview the id falls back
to idx when id is falsy and idx is truthy, and then idx, group and set are
cleared; every other kind stores the fields as given. -/
def StoryId.init (type : String) (set group id idx : Option (List Char)) :
    StoryId :=
  if type = "lyrics" ∨ type = "preview" then
    let id2 := if pyFalsy id && !pyFalsy idx then idx else id
    ⟨type, none, none, id2, none⟩
  else
    ⟨type, set, group, id, idx⟩

/-- Rendering of an optional string inside a join: None contributes
nothing. -/
def optStr (o : Option (List Char)) : List Char := o.getD []

/-- Embedding of StoryId.__str__: concatenation of the non-None fields in
the order set, group, id, idx. -/
def StoryId.str (s : StoryId) : List Char :=
  optStr s.set ++ optStr s.group ++ optStr s.id ++ optStr s.idx

/-- Python slice s[a:b] for non-negative clamped bounds. -/
def pySlice (s : List Char) (a b : Nat) : List Char := (s.drop a).take (b - a)

/-- Python suffix slice s[-n:], which clamps to the whole string when it is
shorter than n. -/
def pySuffix (s : List Char) (n : Nat) : List Char := s.drop (s.length - n)

/-- Embedding of StoryId.parse: lyrics and preview take the whole token as
id; a home token longer than 9 characters is sliced 5/2/4/tail; everything
else is sliced 2/4/tail. -/
def StoryId.parse (text_type : String) (s : List Char) : StoryId :=
  if text_type = "lyrics" ∨ text_type = "preview" then
    StoryId.init text_type none none (some s) none
  else if s.length > 9 ∧ text_type = "home" then
    StoryId.init text_type (some (pySlice s 0 5)) (some (pySlice s 5 7))
      (some (pySlice s 7 11)) (some (s.drop 11))
  else
    StoryId.init text_type none (some (pySlice s 0 2)) (some (pySlice s 2 6))
      (some (s.drop 6))

/-- Embedding of StoryId.parseFromPath: a fixed-length suffix of the path
is sliced positionally per kind; Python negative slice bounds clamp at the
start of the string, which Nat subtraction reproduces. -/
def StoryId.parseFromPath (text_type : String) (path : List Char) : StoryId :=
  if text_type = "home" then
    let p := pySuffix path 16
    StoryId.init text_type (some (pySlice p 0 5)) (some (pySlice p 6 8))
      (some (pySlice p 9 13)) (some (p.drop 13))
  else if text_type = "lyrics" then
    StoryId.init text_type none none
      (some (pySlice path (path.length - 11) (path.length - 7))) none
  else if text_type = "preview" then
    StoryId.init text_type none none (some (pySuffix path 4)) none
  else
    let p := pySuffix path 9
    StoryId.init text_type none (some (pySlice p 0 2)) (some (pySlice p 2 6))
      (some (pySlice p 6 9))

/-- Embedding of StoryId.queryfy: the constructor is re-run on the fields,
then each still-absent field is filled with a fixed-width underscore
placeholder; the group placeholder is skipped only for lyrics and the idx
placeholder only for lyrics and preview. -/
def StoryId.queryfy (sid : StoryId) : StoryId :=
  let s0 := StoryId.init sid.type sid.set sid.group sid.id sid.idx
  let s1 := if s0.set = none ∧ s0.type = "home" then
      { s0 with set := some "_____".toList } else s0
  let s2 := if s1.group = none ∧ s1.type ≠ "lyrics" then
      { s1 with group := some "__".toList } else s1
  let s3 := if s2.id = none then { s2 with id := some "____".toList } else s2
  if s3.idx = none ∧ ¬ (s3.type = "lyrics" ∨ s3.type = "preview") then
    { s3 with idx := some "___".toList } else s3

/-- Embedding of StoryId.asPath: the present fields among set, group, id
become the nested directory segments, idx is excluded. -/
def StoryId.asPath (s : StoryId) : List (List Char) :=
  [s.set, s.group, s.id].filterMap (fun x => x)

/-- Embedding of StoryId.getFilenameIdx; the Except error models the
AttributeError raised when no index is available. -/
def StoryId.getFilenameIdx (s : StoryId) : Except Unit (Option (List Char)) :=
  if s.type = "lyrics" ∨ s.type = "preview" then .ok s.id
  else if !pyFalsy s.idx then .ok s.idx
  else .error ()

lemma take_app {α : Type} (a b : List α) (n : Nat) (h : a.length = n) :
    (a ++ b).take n = a := by
  subst h; exact List.take_left ..

lemma drop_app {α : Type} (a b : List α) (n : Nat) (h : a.length = n) :
    (a ++ b).drop n = b := by
  subst h; exact List.drop_left ..

/-- Field shapes the data model declares per kind: story carries
group(2) + id(4) + idx(3) with set absent; home carries set(5) + group(2)
+ id(4) + a variable idx tail; lyrics and preview carry only the id. -/
def StoryId.wellFormed (s : StoryId) : Prop :=
  (s.type = "story" ∧ s.set = none ∧
    (∃ g, s.group = some g ∧ g.length = 2) ∧
    (∃ i, s.id = some i ∧ i.length = 4) ∧
    (∃ x, s.idx = some x ∧ x.length = 3)) ∨
  (s.type = "home" ∧
    (∃ w, s.set = some w ∧ w.length = 5) ∧
    (∃ g, s.group = some g ∧ g.length = 2) ∧
    (∃ i, s.id = some i ∧ i.length = 4) ∧
    (∃ x, s.idx = some x)) ∨
  ((s.type = "lyrics" ∨ s.type = "preview") ∧ s.set = none ∧
    s.group = none ∧ (∃ i, s.id = some i) ∧ s.idx = none)

/-- C4: for every identifier whose fields have the fixed widths the data
model declares for its kind, parsing the rendered string form recovers the
identical identifier. -/
theorem parse_str_roundtrip (s : StoryId) (h : s.wellFormed) :
    StoryId.parse s.type s.str = s := by
  obtain ⟨ty, st, gr, idf, ix⟩ := s
  rcases h with ⟨hty, hset, ⟨g, hg, hglen⟩, ⟨i, hi, hilen⟩, ⟨x, hx, hxlen⟩⟩ |
    ⟨hty, ⟨w, hw, hwlen⟩, ⟨g, hg, hglen⟩, ⟨i, hi, hilen⟩, ⟨x, hx⟩⟩ |
    ⟨hty, hset, hgroup, ⟨i, hi⟩, hidx⟩
  · simp only at hty hset hg hi hx
    subst hty hset hg hi hx
    simp only [StoryId.str, optStr, Option.getD_none, Option.getD_some,
      List.nil_append]
    rw [StoryId.parse, if_neg (by decide)]
    rw [if_neg (by
      intro hcon
      exact absurd hcon.2 (by decide))]
    rw [StoryId.init, if_neg (by decide)]
    simp only [List.append_assoc]
    have h1 : pySlice (g ++ (i ++ x)) 0 2 = g := by
      rw [pySlice, List.drop_zero]
      exact take_app g (i ++ x) 2 hglen
    have hd2 : (g ++ (i ++ x)).drop 2 = i ++ x := drop_app g (i ++ x) 2 hglen
    have h2 : pySlice (g ++ (i ++ x)) 2 6 = i := by
      rw [pySlice, hd2]
      exact take_app i x 4 hilen
    have h3 : (g ++ (i ++ x)).drop 6 = x := by
      have : (g ++ (i ++ x)).drop 6 = ((g ++ (i ++ x)).drop 2).drop 4 := by
        rw [List.drop_drop]
      rw [this, hd2]
      exact drop_app i x 4 hilen
    rw [h1, h2, h3]
  · simp only at hty hw hg hi hx
    subst hty hw hg hi hx
    simp only [StoryId.str, optStr, Option.getD_some]
    rw [StoryId.parse, if_neg (by decide)]
    rw [if_pos (by
      refine ⟨?_, rfl⟩
      simp only [List.length_append]
      omega)]
    rw [StoryId.init, if_neg (by decide)]
    simp only [List.append_assoc]
    have h1 : pySlice (w ++ (g ++ (i ++ x))) 0 5 = w := by
      rw [pySlice, List.drop_zero]
      exact take_app w (g ++ (i ++ x)) 5 hwlen
    have hd5 : (w ++ (g ++ (i ++ x))).drop 5 = g ++ (i ++ x) :=
      drop_app w (g ++ (i ++ x)) 5 hwlen
    have hd7 : (w ++ (g ++ (i ++ x))).drop 7 = i ++ x := by
      have : (w ++ (g ++ (i ++ x))).drop 7 = ((w ++ (g ++ (i ++ x))).drop 5).drop 2 := by
        rw [List.drop_drop]
      rw [this, hd5]
      exact drop_app g (i ++ x) 2 hglen
    have h2 : pySlice (w ++ (g ++ (i ++ x))) 5 7 = g := by
      rw [pySlice, hd5]
      exact take_app g (i ++ x) 2 hglen
    have h3 : pySlice (w ++ (g ++ (i ++ x))) 7 11 = i := by
      rw [pySlice, hd7]
      exact take_app i x 4 hilen
    have h4 : (w ++ (g ++ (i ++ x))).drop 11 = x := by
      have : (w ++ (g ++ (i ++ x))).drop 11 = ((w ++ (g ++ (i ++ x))).drop 7).drop 4 := by
        rw [List.drop_drop]
      rw [this, hd7]
      exact drop_app i x 4 hilen
    rw [h1, h2, h3, h4]
  · simp only at hset hgroup hi hidx
    subst hset hgroup hi hidx
    rcases hty with hty | hty <;>
    · simp only at hty
      subst hty
      simp [StoryId.parse, StoryId.init, StoryId.str, optStr, pyFalsy]

/-- Witness for C4 at a concrete well-formed story identifier. -/
theorem parse_str_roundtrip_witness :
    StoryId.parse "story" (StoryId.str
      ⟨"story", none, some "04".toList, some "1001".toList, some "001".toList⟩) =
      ⟨"story", none, some "04".toList, some "1001".toList, some "001".toList⟩ :=
  parse_str_roundtrip
    ⟨"story", none, some "04".toList, some "1001".toList, some "001".toList⟩
    (Or.inl ⟨rfl, rfl, ⟨_, rfl, rfl⟩, ⟨_, rfl, rfl⟩, ⟨_, rfl, rfl⟩⟩)

/-- C5 counterexample: for a concrete preview identifier the group field is
not absent after queryfy; queryfy fills it with the two-underscore
wildcard, because its guard only exempts lyrics. -/
theorem queryfy_preview_group_filled :
    (StoryId.queryfy
      (StoryId.init "preview" none none (some "0201".toList) none)).group =
      some "__".toList := by decide

/-- C5 (amended): for kind lyrics or preview the set, group and idx fields
are absent after construction, parse and parseFromPath; queryfy keeps set
and idx absent for both kinds and group absent for lyrics, but for preview
it fills group with the two-underscore placeholder (which the preview query
pattern does not reference). -/
theorem lyrics_preview_fields (ty : String)
    (hty : ty = "lyrics" ∨ ty = "preview") :
    (∀ a b c d, (StoryId.init ty a b c d).set = none ∧
      (StoryId.init ty a b c d).group = none ∧
      (StoryId.init ty a b c d).idx = none) ∧
    (∀ s, (StoryId.parse ty s).set = none ∧ (StoryId.parse ty s).group = none ∧
      (StoryId.parse ty s).idx = none) ∧
    (∀ p, (StoryId.parseFromPath ty p).set = none ∧
      (StoryId.parseFromPath ty p).group = none ∧
      (StoryId.parseFromPath ty p).idx = none) ∧
    (∀ sid : StoryId, sid.type = ty →
      (StoryId.queryfy sid).set = none ∧ (StoryId.queryfy sid).idx = none ∧
      (ty = "lyrics" → (StoryId.queryfy sid).group = none) ∧
      (ty = "preview" → (StoryId.queryfy sid).group = some "__".toList)) := by
  rcases hty with h | h <;> subst h <;>
    refine ⟨?_, ?_, ?_, ?_⟩ <;>
    try (intros; exact ⟨rfl, rfl, rfl⟩)
  all_goals
    intro sid hsid
    obtain ⟨sty, sa, sb, sc, sd⟩ := sid
    simp only at hsid
    subst hsid
  all_goals
    simp [StoryId.queryfy, StoryId.init, apply_ite]

/-- Witness for the amended C5 at concrete inputs of both kinds. -/
theorem lyrics_preview_fields_witness :
    (StoryId.parse "lyrics" "1001".toList).group = none ∧
    (StoryId.queryfy ⟨"preview", none, none, some "0201".toList, none⟩).group =
      some "__".toList := by
  refine ⟨((lyrics_preview_fields "lyrics" (Or.inl rfl)).2.1 "1001".toList).2.1, ?_⟩
  exact ((lyrics_preview_fields "preview" (Or.inr rfl)).2.2.2
    ⟨"preview", none, none, some "0201".toList, none⟩ rfl).2.2.2 rfl

/-- Python str() rendering of an optional string as an f-string interpolant:
None renders as the four characters "None". -/
def pyStr (o : Option (List Char)) : List Char :=
  match o with
  | none => "None".toList
  | some s => s

/-- Embedding of sanitizeFilename: keep only characters with code point
above 31 that are not in the forbidden set. -/
def sanitizeFilename (fn : List Char) : List Char :=
  fn.filter (fun c => decide (c.toNat > 31) &&
    !([34, 42, 47, 58, 60, 62, 63, 92, 124].contains c.toNat))

/-- Clip reference inside a story text track: only m_PathID is read. -/
structure Clip where
  m_PathID : Int
deriving Repr, DecidableEq

/-- One BlockList entry as the source reads it, via
block["TextTrack"]["ClipList"]. -/
structure StoryBlock where
  clipList : List Clip
deriving Repr, DecidableEq

/-- Referenced text object as the source reads it: whether its serialized
type has nodes, and the Name / Text / NextBlock / ChoiceDataList members
of its typetree (an absent choice list is the empty list, which the source
treats identically). -/
structure TextObj where
  nodes : Bool
  name : List Char
  text : List Char
  nextBlock : Int
  choiceDataList : List (List Char)
deriving Repr, DecidableEq

/-- One entry of a preview DataArray: the Name and Text members. -/
structure PreviewEntry where
  name : List Char
  text : List Char
deriving Repr, DecidableEq

/-- One flat tuple row of a lyrics text track: time, text, rest. -/
structure LyricsRow where
  time : List Char
  text : List Char
  rest : List (List Char)
deriving Repr, DecidableEq

/-- Typetree of one candidate root object: readability of its serialized
type, the optional Title member, and the three recognizable collections. -/
structure TypeTree where
  nodes : Bool
  title : Option (List Char)
  blockList : Option (List StoryBlock)
  textTrack : Option (List LyricsRow)
  dataArray : Option (List PreviewEntry)
deriving Repr, DecidableEq

/-- Input shapes extractText receives through duck typing. -/
inductive TextSource
  | raceObj (text : List Char)
  | tupleRow (row : LyricsRow)
  | previewObj (e : PreviewEntry)
  | reader (obj : TextObj)
deriving Repr, DecidableEq

/-- Dictionary extractText builds: optional members model keys that a
branch does not put into the dictionary. -/
structure TextData where
  jpName : Option (List Char)
  jpText : List Char
  time : Option (List Char)
  nextBlock : Option Int
  choices : Option (List (List Char))
deriving Repr, DecidableEq

/-- Embedding of extractText: race reads obj["text"]; lyrics unpacks the
tuple row; preview reads Name and Text; otherwise a reader object with
typetree nodes yields the Name/Text/NextBlock dictionary plus choices when
ChoiceDataList is non-empty, and None when the primary text is empty.  A
shape that the branch cannot consume is a raised TypeError, modelled as an
error. -/
def extractText (assetType : String) (src : TextSource) :
    Except Unit (Option TextData) :=
  if assetType = "race" then
    match src with
    | .raceObj t => .ok (some ⟨none, t, none, none, none⟩)
    | _ => .error ()
  else if assetType = "lyrics" then
    match src with
    | .tupleRow r => .ok (some ⟨none, r.text, some r.time, none, none⟩)
    | _ => .error ()
  else if assetType = "preview" then
    match src with
    | .previewObj e => .ok (some ⟨some e.name, e.text, none, none, none⟩)
    | _ => .error ()
  else
    match src with
    | .reader obj =>
      if obj.nodes then
        if obj.text.isEmpty then .ok none
        else
          .ok (some ⟨some obj.name, obj.text, none, some obj.nextBlock,
            if !obj.choiceDataList.isEmpty then some obj.choiceDataList else none⟩)
      else .ok none
    | _ => .error ()

/-- Output text block: name, text and the optional filtered choice list. -/
structure TextBlock where
  name : List Char
  text : List Char
  choice_data_list : Option (List (List Char))
deriving Repr, DecidableEq

/-- Normalized output record of one bundle. -/
structure ExportData where
  title : List Char
  no_wrap : Bool
  text_block_list : List TextBlock
deriving Repr, DecidableEq

/-- Choice post-processing of the story/home walk: keep non-empty choice
texts, and keep the key only when some survive. -/
def mkChoices (o : Option (List (List Char))) : Option (List (List Char)) :=
  match o with
  | some cs =>
    let cs2 := cs.filter (fun t => !t.isEmpty)
    if !cs2.isEmpty then some cs2 else none
  | none => none

/-- Inner loop of the story/home walk over one ClipList: clips whose
m_PathID is not in the asset map are skipped, extractText decides the rest. -/
def clipBlocks (ty : String) (assets : List (Int × TextObj)) :
    List Clip → Except Unit (List TextBlock)
  | [] => .ok []
  | c :: rest =>
    match assets.lookup c.m_PathID with
    | none => clipBlocks ty assets rest
    | some obj =>
      match extractText ty (.reader obj) with
      | .error e => .error e
      | .ok none => clipBlocks ty assets rest
      | .ok (some td) =>
        match clipBlocks ty assets rest with
        | .error e => .error e
        | .ok tl =>
          .ok ({ name := td.jpName.getD [], text := td.jpText,
                 choice_data_list := mkChoices td.choices } :: tl)

/-- Outer loop of the story/home walk over BlockList. -/
def blockListBlocks (ty : String) (assets : List (Int × TextObj)) :
    List StoryBlock → Except Unit (List TextBlock)
  | [] => .ok []
  | b :: rest =>
    match clipBlocks ty assets b.clipList, blockListBlocks ty assets rest with
    | .error e, _ => .error e
    | .ok _, .error e => .error e
    | .ok h, .ok t => .ok (h ++ t)

/-- Preview walk over DataArray: every entry passes through extractText
"preview", whose dictionary result is always truthy, so each row yields a
block even when its text is empty. -/
def previewBlocks : List PreviewEntry → Except Unit (List TextBlock)
  | [] => .ok []
  | e :: rest =>
    match extractText "preview" (.previewObj e), previewBlocks rest with
    | .error err, _ => .error err
    | .ok _, .error err => .error err
    | .ok none, .ok t => .ok t
    | .ok (some td), .ok t =>
      .ok ({ name := td.jpName.getD [], text := td.jpText,
             choice_data_list := none } :: t)

/-- TYPE_CONFIG[type]["no_wrap"]; the error models the KeyError raised for
a type outside the configured four. -/
def TYPE_CONFIG_no_wrap (ty : String) : Except Unit Bool :=
  if ty = "story" then .ok false
  else if ty = "home" then .ok true
  else if ty = "lyrics" then .ok false
  else if ty = "preview" then .ok false
  else .error ()

/-- TYPE_CONFIG["preview"]["filename"] as declared in the source: the
template embeds the id and, when non-empty, the title in parentheses. -/
def TYPE_CONFIG_preview_filename (s : StoryId) (title : List Char) :
    List Char :=
  if !title.isEmpty then
    pyStr s.id ++ " (".toList ++ title ++ ").json".toList
  else
    pyStr s.id ++ ".json".toList

/-- Root-object search of GameBundle.load: the first object whose
serialized type has nodes and whose typetree contains a BlockList or a
TextTrack member. -/
def findRoot (objects : List TypeTree) : Option TypeTree :=
  objects.find? (fun t => t.nodes && (t.blockList.isSome || t.textTrack.isSome))

/-- Embedding of extractAsset over the externally parsed object graph (the
located root tree and the PathID-to-object asset map).  The walk has
branches only for story/home (BlockList) and preview (DataArray); no
branch fills the block list for lyrics.  An empty block list yields None;
otherwise the kind-specific filename is built, the non-story/home case
using f"\x7bstoryId.idx\x7d (\x7btitle\x7d)" when the sanitized title is
non-empty and getFilenameIdx() otherwise. -/
def extractAsset (ty : String) (root : Option TypeTree)
    (assets : List (Int × TextObj)) (storyId : StoryId) :
    Except Unit (Option (ExportData × List Char)) :=
  match root with
  | none => .ok none
  | some tree =>
    if !tree.nodes then .ok none
    else
      match TYPE_CONFIG_no_wrap ty with
      | .error e => .error e
      | .ok nw =>
        let blocksE : Except Unit (List TextBlock) :=
          if ty = "story" ∨ ty = "home" then
            match tree.blockList with
            | none => .error ()
            | some bl => blockListBlocks ty assets bl
          else if ty = "preview" then
            match tree.dataArray with
            | none => .error ()
            | some da => previewBlocks da
          else .ok []
        match blocksE with
        | .error e => .error e
        | .ok blocks =>
          if blocks.isEmpty then .ok none
          else
            let ex : ExportData :=
              { title := tree.title.getD [], no_wrap := nw,
                text_block_list := blocks }
            if ty = "story" then
              .ok (some (ex, "storytimeline_".toList ++ storyId.str ++
                ".json".toList))
            else if ty = "home" then
              .ok (some (ex, "hometimeline_".toList ++ pyStr storyId.set ++
                "_".toList ++ pyStr storyId.group ++ "_".toList ++
                pyStr storyId.id ++ pyStr storyId.idx ++ ".json".toList))
            else
              let title := sanitizeFilename ex.title
              let idxStringE : Except Unit (List Char) :=
                if !title.isEmpty then
                  .ok (pyStr storyId.idx ++ " (".toList ++ title ++ ")".toList)
                else
                  match storyId.getFilenameIdx with
                  | .error e => .error e
                  | .ok v => .ok (pyStr v)
              match idxStringE with
              | .error e => .error e
              | .ok idxString => .ok (some (ex, idxString ++ ".json".toList))

/-- Concrete lyrics fixture: one flat tuple row with non-empty text. -/
def lyricsRowHello : LyricsRow := ⟨"10.5".toList, "Hello".toList, []⟩

/-- Concrete lyrics root tree carrying the recognized TextTrack schema. -/
def lyricsTree : TypeTree :=
  { nodes := true, title := none, blockList := none,
    textTrack := some [lyricsRowHello], dataArray := none }

/-- Concrete lyrics identifier parsed from a musicscores path hint. -/
def lyricsSid : StoryId :=
  StoryId.parseFromPath "lyrics" "m1001/m1001_lyrics".toList

/-- C6: the claim fails on the code.  A decoded lyrics bundle whose object
graph carries the recognized text-track schema with a non-empty text row is
recognized as a root (first conjunct) and its rows would yield text through
the lyrics branch of extractText (second conjunct), yet extractAsset has no
lyrics walk branch, leaves the block list empty and returns None, so the
bundle is skipped, not written (third conjunct). -/
theorem extractAsset_lyrics_dropped :
    findRoot [lyricsTree] = some lyricsTree ∧
    extractText "lyrics" (.tupleRow lyricsRowHello) =
      .ok (some ⟨none, "Hello".toList, some "10.5".toList, none, none⟩) ∧
    extractAsset "lyrics" (findRoot [lyricsTree]) [] lyricsSid = .ok none := by
  refine ⟨rfl, rfl, rfl⟩

/-- Concrete preview DataArray entry. -/
def previewEntry1 : PreviewEntry := ⟨"Na".toList, "Tx".toList⟩

/-- Concrete preview root tree with a non-empty Title, recognized via an
(empty) TextTrack member. -/
def previewTree : TypeTree :=
  { nodes := true, title := some "Hello".toList, blockList := none,
    textTrack := some [], dataArray := some [previewEntry1] }

/-- The same preview tree without a Title. -/
def previewTreeNoTitle : TypeTree :=
  { previewTree with title := none }

/-- Concrete preview identifier parsed from a loguiasset path hint: the id
is the 4-character suffix "0201". -/
def previewSid : StoryId :=
  StoryId.parseFromPath "preview" "ui_asset_00201".toList

/-- Export record extracted from previewTree. -/
def previewExportHello : ExportData :=
  { title := "Hello".toList, no_wrap := false,
    text_block_list := [⟨"Na".toList, "Tx".toList, none⟩] }

/-- Export record extracted from previewTreeNoTitle. -/
def previewExportNoTitle : ExportData :=
  { title := [], no_wrap := false,
    text_block_list := [⟨"Na".toList, "Tx".toList, none⟩] }

/-- C7: the claim fails on the code.  For the preview record with id
"0201" and extracted title "Hello", extractAsset interpolates storyId.idx,
which the constructor cleared to None for preview, so the written filename
is "None (Hello).json" instead of the "0201 (Hello).json" that the
source's own TYPE_CONFIG preview filename template (last conjunct)
declares; the empty-title case does fall back to the id. -/
theorem extractAsset_preview_filename_bug :
    previewSid.id = some "0201".toList ∧
    previewSid.idx = none ∧
    extractAsset "preview" (some previewTree) [] previewSid =
      .ok (some (previewExportHello, "None (Hello).json".toList)) ∧
    extractAsset "preview" (some previewTreeNoTitle) [] previewSid =
      .ok (some (previewExportNoTitle, "0201.json".toList)) ∧
    TYPE_CONFIG_preview_filename previewSid
      (sanitizeFilename "Hello".toList) = "0201 (Hello).json".toList := by
  refine ⟨by decide, by decide, rfl, rfl, by decide⟩

/-- editMark, the two-byte patched-bundle trailer b"\x08\x04". -/
def editMark : List Nat := [8, 4]

/-- Embedding of GameBundle.is_patched over the file content at the path
(None when the file is absent or unreadable): the final two bytes are
compared with editMark; any failure of the open/seek/read, including a
file shorter than the two-byte backwards seek, is caught and yields
False. -/
def is_patched (file : Option (List Nat)) : Bool :=
  match file with
  | none => false
  | some bs =>
    if bs.length < 2 then false
    else decide (bs.drop (bs.length - 2) = editMark)

/-- C10: is_patched is total; it returns True exactly when the file is
readable and its final two bytes equal the marker, and returns False,
rather than raising, for an absent or unreadable file and for one shorter
than two bytes. -/
theorem is_patched_spec (file : Option (List Nat)) :
    (is_patched file = true ↔
      ∃ bs, file = some bs ∧ 2 ≤ bs.length ∧
        bs.drop (bs.length - 2) = editMark) ∧
    is_patched none = false ∧
    (∀ bs, bs.length < 2 → is_patched (some bs) = false) := by
  refine ⟨?_, rfl, ?_⟩
  · constructor
    · intro h
      match file with
      | none => simp [is_patched] at h
      | some bs =>
        rw [is_patched] at h
        by_cases hlen : bs.length < 2
        · rw [if_pos hlen] at h; exact absurd h (by simp)
        · rw [if_neg hlen] at h
          exact ⟨bs, rfl, by omega, of_decide_eq_true h⟩
    · rintro ⟨bs, rfl, hlen, hmark⟩
      rw [is_patched, if_neg (by omega)]
      exact decide_eq_true hmark
  · intro bs hlen
    rw [is_patched, if_pos hlen]

/-- Witness for C10 at concrete inputs: a patched file, a one-byte file
and an absent file. -/
theorem is_patched_spec_witness :
    is_patched (some [1, 8, 4]) = true ∧
    is_patched (some [9]) = false ∧
    is_patched none = false :=
  ⟨(is_patched_spec (some [1, 8, 4])).1.mpr ⟨[1, 8, 4], rfl, by decide, by decide⟩,
   (is_patched_spec (some [9])).2.2 [9] (by decide),
   (is_patched_spec none).2.1⟩

/-- Per-record environment seen by one export task: the filenames already
present in the record's export directory, the bundle file content (None
when the file is absent), and the object graph with asset map that the
external parser returns for the decoded bundle bytes. -/
structure ExportEnv where
  existingFiles : List (List Char)
  bundle : Option (List Nat)
  objects : List TypeTree
  assets : List (Int × TextObj)

/-- Match of the glob pattern idxStr ++ "*" ++ ".json" used by the
existing-output check of the non-story/home kinds: a filename matches when
it starts with idxStr and what follows ends in ".json". -/
def matchIdxGlob (idxStr fname : List Char) : Bool :=
  List.isPrefixOf idxStr fname &&
    List.isSuffixOf ".json".toList (fname.drop idxStr.length)

/-- Existing-output check of exportAsset: unless the overwrite flag is
set, the expected output is looked up by exact filename for story and
home and by the getFilenameIdx glob for the remaining kinds; the error is
a getFilenameIdx exception escaping the code before the try block. -/
def outputExistsCheck (ty : String) (overwrite : Bool) (storyId : StoryId)
    (files : List (List Char)) : Except Unit Bool :=
  if overwrite then .ok false
  else if ty = "story" then
    .ok (files.contains
      ("storytimeline_".toList ++ storyId.str ++ ".json".toList))
  else if ty = "home" then
    .ok (files.contains
      ("hometimeline_".toList ++ pyStr storyId.set ++ "_".toList ++
        pyStr storyId.group ++ "_".toList ++ pyStr storyId.id ++
        pyStr storyId.idx ++ ".json".toList))
  else
    match storyId.getFilenameIdx with
    | .error e => .error e
    | .ok v => .ok (files.any (matchIdxGlob (pyStr v)))

/-- Embedding of exportAsset for one record: parse the identifier from the
path hint; skip when the expected output already exists; then skip when
the bundle file is absent; then skip when it is patched; then run
extractAsset, whose caught exception or empty result is also a skip;
otherwise the written filename is returned. -/
def exportAsset (ty : String) (overwrite : Bool) (unity_path : List Char)
    (env : ExportEnv) : Except Unit (Option (List Char)) :=
  let storyId := StoryId.parseFromPath ty unity_path
  match outputExistsCheck ty overwrite storyId env.existingFiles with
  | .error e => .error e
  | .ok outputPresent =>
    if outputPresent then .ok none
    else if env.bundle.isNone then .ok none
    else if is_patched env.bundle then .ok none
    else
      match extractAsset ty (findRoot env.objects) env.assets storyId with
      | .error _ => .ok none
      | .ok none => .ok none
      | .ok (some (_, filename)) => .ok (some filename)

/-- Embedding of the dispatch part of main: the pre-flight sample check
aborts the whole run (None) when the first queried record's bundle file is
absent; otherwise every submitted record is processed to its own
outcome. -/
def runBatch (ty : String) (overwrite : Bool)
    (q : List (List Char × ExportEnv)) :
    Option (List (Except Unit (Option (List Char)))) :=
  match q with
  | [] => some []
  | (_, env0) :: _ =>
    if env0.bundle.isNone then none
    else some (q.map (fun pe => exportAsset ty overwrite pe.1 pe.2))

lemma StoryId.init_type (t : String) (a b c d : Option (List Char)) :
    (StoryId.init t a b c d).type = t := by
  rw [StoryId.init]; split <;> rfl

lemma StoryId.parseFromPath_type (t : String) (p : List Char) :
    (StoryId.parseFromPath t p).type = t := by
  rw [StoryId.parseFromPath]
  split
  · exact StoryId.init_type ..
  · split
    · exact StoryId.init_type ..
    · split
      · exact StoryId.init_type ..
      · exact StoryId.init_type ..

lemma outputExistsCheck_ok (ty : String)
    (hty : ty = "story" ∨ ty = "home" ∨ ty = "lyrics" ∨ ty = "preview")
    (overwrite : Bool) (p : List Char) (files : List (List Char)) :
    ∃ b, outputExistsCheck ty overwrite (StoryId.parseFromPath ty p) files =
      .ok b := by
  by_cases how : overwrite
  · exact ⟨false, by rw [outputExistsCheck, if_pos how]⟩
  · rcases hty with h | h | h | h <;> subst h
    · exact ⟨files.contains ("storytimeline_".toList ++
        (StoryId.parseFromPath "story" p).str ++ ".json".toList), by
        rw [outputExistsCheck, if_neg how, if_pos rfl]⟩
    · exact ⟨files.contains ("hometimeline_".toList ++
        pyStr (StoryId.parseFromPath "home" p).set ++ "_".toList ++
        pyStr (StoryId.parseFromPath "home" p).group ++ "_".toList ++
        pyStr (StoryId.parseFromPath "home" p).id ++
        pyStr (StoryId.parseFromPath "home" p).idx ++ ".json".toList), by
        rw [outputExistsCheck, if_neg how, if_neg (by decide), if_pos rfl]⟩
    · exact ⟨files.any (matchIdxGlob
        (pyStr (StoryId.parseFromPath "lyrics" p).id)), by
        rw [outputExistsCheck, if_neg how, if_neg (by decide), if_neg (by decide),
          StoryId.getFilenameIdx,
          if_pos (Or.inl (StoryId.parseFromPath_type "lyrics" p))]⟩
    · exact ⟨files.any (matchIdxGlob
        (pyStr (StoryId.parseFromPath "preview" p).id)), by
        rw [outputExistsCheck, if_neg how, if_neg (by decide), if_neg (by decide),
          StoryId.getFilenameIdx,
          if_pos (Or.inr (StoryId.parseFromPath_type "preview" p))]⟩

/-- Environment of a record whose bundle file is absent. -/
def absentEnv : ExportEnv := ⟨[], none, [], []⟩

/-- Environment of a record whose bundle file is present and not patched,
with an object graph carrying no recognizable schema. -/
def plainEnv : ExportEnv := ⟨[], some [1, 2, 3], [], []⟩

/-- C8 counterexample: when the first queried record's bundle file is
absent, the pre-flight sample check aborts the whole run before dispatch
(None), so the absent bundle does abort the run and the second submitted
record is never processed — not a per-record skip. -/
theorem preflight_abort_counterexample :
    runBatch "story" false
      [("a0000210001".toList, absentEnv), ("a0000210002".toList, plainEnv)] =
      none := rfl

/-- C8 (amended): for each target kind, a record whose bundle file is
absent yields a silent per-record skip (None outcome) from exportAsset,
and the batch continues — every submitted record receives its own outcome
— provided the first queried record's bundle file exists; when the first
record's bundle is absent, the pre-flight sample check aborts the run
before any record is dispatched. -/
theorem absent_bundle_skips (ty : String)
    (hty : ty = "story" ∨ ty = "home" ∨ ty = "lyrics" ∨ ty = "preview")
    (overwrite : Bool) (q : List (List Char × ExportEnv))
    (p : List Char) (env : ExportEnv)
    (hmem : (p, env) ∈ q) (habs : env.bundle = none)
    (p0 : List Char) (env0 : ExportEnv)
    (hq0 : q.head? = some (p0, env0)) (h0 : env0.bundle.isSome) :
    exportAsset ty overwrite p env = .ok none ∧
    runBatch ty overwrite q =
      some (q.map (fun pe => exportAsset ty overwrite pe.1 pe.2)) ∧
    (q.map (fun pe => exportAsset ty overwrite pe.1 pe.2)).length = q.length := by
  refine ⟨?_, ?_, List.length_map ..⟩
  · obtain ⟨b, hb⟩ := outputExistsCheck_ok ty hty overwrite p env.existingFiles
    rw [exportAsset]
    rw [hb]
    match b with
    | true => rfl
    | false =>
      have : env.bundle.isNone = true := by rw [habs]; rfl
      simp only [Bool.false_eq_true, if_false, this, if_true]
  · match q, hq0 with
    | (p0, env0) :: rest, rfl =>
      rw [runBatch]
      rw [if_neg (by
        intro hcon
        rw [Option.isNone_iff_eq_none] at hcon
        rw [hcon] at h0
        simp at h0)]

/-- Witness for the amended C8: a story batch whose first record's bundle
exists and whose second record's bundle is absent; the absent record gets
a skip outcome and the batch result covers both records. -/
theorem absent_bundle_skips_witness :
    exportAsset "story" false "a0000210002".toList absentEnv = .ok none ∧
    runBatch "story" false
      [("a0000210001".toList, plainEnv), ("a0000210002".toList, absentEnv)] =
      some [exportAsset "story" false "a0000210001".toList plainEnv,
        exportAsset "story" false "a0000210002".toList absentEnv] := by
  have h := absent_bundle_skips "story" (Or.inl rfl) false
    [("a0000210001".toList, plainEnv), ("a0000210002".toList, absentEnv)]
    "a0000210002".toList absentEnv
    (List.mem_cons_of_mem _ (List.mem_cons_self _ _)) rfl
    "a0000210001".toList plainEnv rfl rfl
  exact ⟨h.1, h.2.1⟩

/-- First-run environment of the preview record: nothing in the export
directory, a present unpatched bundle, and the preview object graph. -/
def previewEnv1 : ExportEnv := ⟨[], some [1, 2, 3], [previewTree], []⟩

/-- Second-run environment: identical except that the file written by the
first run is now in the export directory. -/
def previewEnv2 : ExportEnv :=
  ⟨["None (Hello).json".toList], some [1, 2, 3], [previewTree], []⟩

/-- C9: the idempotency half of the claim fails on the code.  The first
run of the preview record with id "0201" and title "Hello" extracts and
returns the filename "None (Hello).json"; on the second run the
existing-output check globs for "0201*.json", which does not match the
file actually written (third conjunct), so the task extracts and writes
again instead of skipping — whereas the filename the source's TYPE_CONFIG
declares would have matched (fourth conjunct). -/
theorem exportAsset_not_idempotent_for_preview :
    exportAsset "preview" false "ui_asset_00201".toList previewEnv1 =
      .ok (some "None (Hello).json".toList) ∧
    exportAsset "preview" false "ui_asset_00201".toList previewEnv2 =
      .ok (some "None (Hello).json".toList) ∧
    matchIdxGlob "0201".toList "None (Hello).json".toList = false ∧
    matchIdxGlob "0201".toList "0201 (Hello).json".toList = true := by
  refine ⟨rfl, rfl, by decide, by decide⟩
